import Mathlib

/-!
Shallow embedding of the two batch scripts of the `risksense_tools` repository:

* `src/python/tools/tag_import_tool/import_tags.py`  (namespace `ImportTags`)
* `src/tools/cmdb_update_tool/update_cmdb.py`        (namespace `UpdateCmdb`)

Python dictionaries coming from `csv.DictReader` are modelled as association
lists (`Dict`); paged JSON responses of the platform API are modelled by the
`Json` inductive.  Raised Python exceptions are modelled by `PyErr`; process
termination (`sys.exit` / `exit`, or a traceback from an uncaught exception)
is modelled by `Halt`.  The external API client (the collaborator) is passed
in as a function argument; each entry point additionally returns the list of
submission calls actually made to the collaborator, so that "no submission
attempt is made" is an inspectable fact of the model.
-/

/-- Exceptions the two scripts can raise or observe, as modelled values. -/
inductive PyErr where
  | keyError (key : String)
  | valueError (msg : String)
  | typeError (msg : String)
  | indexError (msg : String)
  | requestFailed (msg : String)
  | apiError (msg : String)
deriving Repr, DecidableEq

/-- How a run can terminate abnormally: an explicit `sys.exit`/`exit` with a
code, or a Python traceback from an exception no handler catches. -/
inductive Halt where
  | exit (code : Nat)
  | uncaught (err : PyErr)
deriving Repr, DecidableEq

/-- A `csv.DictReader` row: an ordered field-name to string-value mapping. -/
abbrev Dict := List (String × String)

/-- Python `k in d` on a dictionary: membership among the KEYS. -/
def dictHasKey (d : Dict) (k : String) : Bool :=
  d.any (fun p => p.1 == k)

/-- Python `d[k]` / `d.get(k, None)`: the value at the key, if present. -/
def dictGet (d : Dict) (k : String) : Option String :=
  (d.find? (fun p => p.1 == k)).map (fun p => p.2)

/-- JSON-like values returned by the platform API collaborator. -/
inductive Json where
  | num (n : Int)
  | str (s : String)
  | arr (elems : List Json)
  | obj (fields : List (String × Json))
deriving Repr

/-- Python `resp[k]` on a JSON object: the value at the key, if the value is
an object holding that key. -/
def Json.getKey : Json → String → Option Json
  | .obj fields, k => (fields.find? (fun p => p.1 == k)).map (fun p => p.2)
  | _, _ => none

/-- Python `v == n` between a JSON field value and an integer client id:
true exactly when the value is that number. -/
def jsonEqNum (v : Json) (n : Int) : Bool :=
  match v with
  | .num m => m == n
  | _ => false

/-- Python `s.upper()` restricted to ASCII, which is all the scripts use. -/
def pyUpper (s : String) : String :=
  String.mk (s.data.map Char.toUpper)

/-- Case-insensitive string equality (both sides uppercased). -/
def ciEq (s t : String) : Bool :=
  pyUpper s == pyUpper t

namespace ImportTags

/-- The six-field payload handed to `tags.create` (`import_tags.py:156`). -/
structure TagRequest where
  tag_type : String
  name : String
  desc : String
  owner : String
  color : String
  locked : String
deriving Repr, DecidableEq

/-- The fixed tag-type enumeration (`import_tags.py:141`). -/
def acceptable_types : List String :=
  ["COMPLIANCE", "LOCATION", "CUSTOM", "REMEDIATION",
   "PEOPLE", "PROJECT", "SCANNER", "CMDB"]

/-- `create_tag` (`import_tags.py:121-160`).  `submit` stands for
`tags.create`; the second component of the result lists the submission
calls made.  Note the source line `if "" in tag_info:` tests dictionary
KEY membership, so it is modelled with `dictHasKey`. -/
def create_tag (submit : TagRequest → Except String Int) (tag_info : Dict) :
    Except PyErr Int × List TagRequest :=
  if dictHasKey tag_info "" then
    (.error (.valueError "Fields cannot be blank."), [])
  else
    match dictGet tag_info "tag_type" with
    | none => (.error (.keyError "tag_type"), [])
    | some tt =>
      if acceptable_types.contains tt then
        match dictGet tag_info "name" with
        | none => (.error (.keyError "name"), [])
        | some nm =>
          match dictGet tag_info "desc" with
          | none => (.error (.keyError "desc"), [])
          | some ds =>
            match dictGet tag_info "owner" with
            | none => (.error (.keyError "owner"), [])
            | some ow =>
              match dictGet tag_info "color" with
              | none => (.error (.keyError "color"), [])
              | some co =>
                match dictGet tag_info "locked" with
                | none => (.error (.keyError "locked"), [])
                | some lk =>
                  let req : TagRequest := ⟨tt, nm, ds, ow, co, lk⟩
                  match submit req with
                  | .ok tag_id => (.ok tag_id, [req])
                  | .error m => (.error (.requestFailed m), [req])
      else
        (.error (.valueError "Tag type is not valid.  Valid types are: COMPLIANCE, LOCATION, CUSTOM, REMEDIATION, PEOPLE, PROJECT, SCANNER, or CMDB"), [])

/-- The validation loop of `validate_client_id` (`import_tags.py:64-66`):
`validity` starts `False` and latches to `True` on any client whose `id`
equals `CLIENT_ID`; a client object without an `id` key raises `KeyError`. -/
def findValidity (client_id : Int) : List Json → Bool → Except PyErr Bool
  | [], validity => .ok validity
  | cl :: rest, validity =>
    match cl.getKey "id" with
    | none => .error (.keyError "id")
    | some v => findValidity client_id rest (validity || jsonEqNum v client_id)

/-- `validate_client_id` (`import_tags.py:41-68`).  `get_clients` stands for
`clients.get_clients(page_size, page_number)`; a `RequestFailed` from it is
caught and turned into `sys.exit(1)`. -/
def validate_client_id (get_clients : Nat → Nat → Except String Json)
    (client_id : Int) : Except Halt Bool :=
  match get_clients 300 0 with
  | .error _ => .error (.exit 1)
  | .ok resp =>
    match resp.getKey "_embedded" with
    | none => .error (.uncaught (.keyError "_embedded"))
    | some emb =>
      match emb.getKey "clients" with
      | none => .error (.uncaught (.keyError "clients"))
      | some (.arr my_clients) =>
        match findValidity client_id my_clients false with
        | .ok validity => .ok validity
        | .error e => .error (.uncaught e)
      | some _ => .error (.uncaught (.typeError "clients value is not iterable as a client list"))

/-- `get_client_id` (`import_tags.py:71-93`).  The source reads
`my_client['id']` directly on the paged response object — it never descends
into `['_embedded']['clients']`. -/
def get_client_id (get_clients : Nat → Nat → Except String Json) :
    Except Halt Json :=
  match get_clients 1 0 with
  | .error _ => .error (.exit 1)
  | .ok my_client =>
    match my_client.getKey "id" with
    | none => .error (.uncaught (.keyError "id"))
    | some v => .ok v

/-- The field names every row of the tag csv file carries
(`import_tags.py:144-153` and the `item['name']` print at line 186). -/
def requiredFields : List String :=
  ["tag_type", "name", "desc", "owner", "color", "locked"]

/-- One printed line of the tag-creation loop (`import_tags.py:185-194`). -/
inductive TagOutcome where
  | success (name : String) (tag_id : Int)
  | failure (name : String) (err : PyErr)
deriving Repr, DecidableEq

/-- One iteration of the loop in `main` (`import_tags.py:185-194`): the
progress print reads `item['name']` (KeyError if absent), then `create_tag`
runs; `RequestFailed` and `ValueError` are caught, anything else escapes. -/
def processItem (submit : TagRequest → Except String Int) (item : Dict) :
    Except PyErr TagOutcome :=
  match dictGet item "name" with
  | none => .error (.keyError "name")
  | some nm =>
    match (create_tag submit item).1 with
    | .ok tag_id => .ok (.success nm tag_id)
    | .error (.requestFailed m) => .ok (.failure nm (.requestFailed m))
    | .error (.valueError m) => .ok (.failure nm (.valueError m))
    | .error e => .error e

/-- The record loop of `main` (`import_tags.py:185-194`): an uncaught
exception from any iteration aborts the whole loop. -/
def mainLoop (submit : TagRequest → Except String Int) :
    List Dict → Except PyErr (List TagOutcome)
  | [] => .ok []
  | item :: rest =>
    match processItem submit item with
    | .error e => .error e
    | .ok o =>
      match mainLoop submit rest with
      | .error e => .error e
      | .ok outs => .ok (o :: outs)

/-- The identity-resolution prologue of `main` (`import_tags.py:170-177`). -/
def resolve (client_id_cfg : Option Int)
    (get_clients : Nat → Nat → Except String Json) : Except Halt Json :=
  match client_id_cfg with
  | none => get_client_id get_clients
  | some c =>
    match validate_client_id get_clients c with
    | .error h => .error h
    | .ok false => .error (.exit 1)
    | .ok true => .ok (.num c)

/-- `main` (`import_tags.py:163-197`): resolve the client identity, then read
the csv file, then run the loop.  `read_csv` stands for `read_csv_file`
applied to the configured filename (its own failure, e.g. a missing file,
aborts the run); `create` stands for `tags.create` scoped to the resolved
client identity. -/
def main (client_id_cfg : Option Int)
    (get_clients : Nat → Nat → Except String Json)
    (read_csv : Except Halt (List Dict))
    (create : Json → TagRequest → Except String Int) :
    Except Halt (Json × List TagOutcome) :=
  match resolve client_id_cfg get_clients with
  | .error h => .error h
  | .ok cid =>
    match read_csv with
    | .error h => .error h
    | .ok csv_data_dict =>
      match mainLoop (create cid) csv_data_dict with
      | .error e => .error (.uncaught e)
      | .ok outs => .ok (cid, outs)

end ImportTags

namespace UpdateCmdb

/-- One criterion of the search filter built by `send_update_request`
(`update_cmdb.py:219-236`).  `value` is `Option String` because the Python
variable `host` is `kwargs.get('host', None)`. -/
structure SearchFilter where
  field : String
  exclusive : Bool
  operator : String
  value : Option String
deriving Repr, DecidableEq

/-- `send_update_request` (`update_cmdb.py:165-249`).  `update_hosts_cmdb`
stands for `self.rs.hosts.update_hosts_cmdb`; the second component of the
result lists the calls made to it, each with its search filter and its
sparse update dictionary.  `kwargs.pop('host')` raises `KeyError` when the
key is absent; afterwards the loop over the remaining `kwargs` keeps only
the non-empty values. -/
def send_update_request (network_type : String)
    (update_hosts_cmdb : List SearchFilter → Dict → Except String Int)
    (kwargs : Dict) : Except PyErr Int × List (List SearchFilter × Dict) :=
  let host := dictGet kwargs "host"
  if dictHasKey kwargs "host" then
    let update_dict := (kwargs.filter (fun p => p.1 != "host")).filter
      (fun p => p.2 != "")
    let search_filter :=
      if pyUpper network_type == "HOSTNAME" then
        [SearchFilter.mk "hostname" false "EXACT" host]
      else
        [SearchFilter.mk "ipAddress" false "EXACT" host]
    match host with
    | some h =>
      if h != "" then
        match update_hosts_cmdb search_filter update_dict with
        | .ok job_id => (.ok job_id, [(search_filter, update_dict)])
        | .error m => (.error (.apiError m), [(search_filter, update_dict)])
      else
        (.error (.valueError "There was no host provided for this row."), [])
    | none =>
      (.error (.valueError "There was no host provided for this row."), [])
  else
    (.error (.keyError "host"), [])

/-- The id-collection loop of `validate_client_id`
(`update_cmdb.py:118-121`): `client['id']` for each entry of
`self.rs.my_clients`, raising `KeyError` at the first entry without one. -/
def collectIds : List Json → Except PyErr (List Json)
  | [] => .ok []
  | cl :: rest =>
    match cl.getKey "id" with
    | none => .error (.keyError "id")
    | some v =>
      match collectIds rest with
      | .error e => .error e
      | .ok ids => .ok (v :: ids)

/-- `validate_client_id` (`update_cmdb.py:108-126`): raises `ValueError`
when the submitted client id is not among the collected ids. -/
def validate_client_id (my_clients : List Json) (submitted_client_id : Int) :
    Except PyErr Unit :=
  match collectIds my_clients with
  | .error e => .error e
  | .ok my_client_ids =>
    if my_client_ids.any (fun v => jsonEqNum v submitted_client_id) then
      .ok ()
    else
      .error (.valueError "User not assigned to the submitted client ID.")

/-- `get_client_id` (`update_cmdb.py:128-138`): `self.rs.my_clients[0]['id']`. -/
def get_client_id (my_clients : List Json) : Except PyErr Json :=
  match my_clients with
  | [] => .error (.indexError "list index out of range")
  | cl :: _ =>
    match cl.getKey "id" with
    | none => .error (.keyError "id")
    | some v => .ok v

/-- One printed line of the update loop (`update_cmdb.py:69-78`): the
success print reads `item['host']`. -/
inductive CmdbOutcome where
  | success (host : Option String) (job_id : Int)
  | failure (err : PyErr)
deriving Repr, DecidableEq

/-- The record loop of `__init__` (`update_cmdb.py:63-83`): the `except`
clause lists `Exception` among its classes, so every failure of
`send_update_request` is caught and counted; the loop returns the outcome
list together with `success_counter` and `failure_counter`. -/
def mainLoop (network_type : String)
    (update_hosts_cmdb : List SearchFilter → Dict → Except String Int) :
    List Dict → List CmdbOutcome × Nat × Nat
  | [] => ([], 0, 0)
  | item :: rest =>
    let acc := mainLoop network_type update_hosts_cmdb rest
    match (send_update_request network_type update_hosts_cmdb item).1 with
    | .ok job_id =>
      (.success (dictGet item "host") job_id :: acc.1, acc.2.1 + 1, acc.2.2)
    | .error e =>
      (.failure e :: acc.1, acc.2.1, acc.2.2 + 1)

/-- The identity-resolution prologue of `__init__` (`update_cmdb.py:38-48`):
with a configured `client_id`, only `ValueError` from `validate_client_id`
is caught and turned into `sys.exit(1)`. -/
def resolve (client_id_cfg : Option Int) (my_clients : List Json) :
    Except Halt Json :=
  match client_id_cfg with
  | none =>
    match get_client_id my_clients with
    | .ok v => .ok v
    | .error e => .error (.uncaught e)
  | some c =>
    match validate_client_id my_clients c with
    | .ok _ => .ok (.num c)
    | .error (.valueError _) => .error (.exit 1)
    | .error e => .error (.uncaught e)

/-- `__init__` (`update_cmdb.py:23-83`): resolve the client identity, read
the csv file, `exit(1)` when it holds zero items, otherwise run the loop.
`read_csv` stands for `read_csv_file` applied to the configured filename. -/
def toolInit (client_id_cfg : Option Int) (my_clients : List Json)
    (read_csv : Except Halt (List Dict)) (network_type : String)
    (update_hosts_cmdb : List SearchFilter → Dict → Except String Int) :
    Except Halt (Json × (List CmdbOutcome × Nat × Nat)) :=
  match resolve client_id_cfg my_clients with
  | .error h => .error h
  | .ok client_id =>
    match read_csv with
    | .error h => .error h
    | .ok csv_data_dict =>
      if csv_data_dict.length == 0 then
        .error (.exit 1)
      else
        .ok (client_id, mainLoop network_type update_hosts_cmdb csv_data_dict)

end UpdateCmdb

/-! ### Helper lemmas -/

theorem dictGet_some_hasKey {d : Dict} {k : String} {v : String}
    (h : dictGet d k = some v) : dictHasKey d k = true := by
  unfold dictGet at h
  unfold dictHasKey
  rcases hf : d.find? (fun p => p.1 == k) with _ | p
  · rw [hf] at h; simp at h
  · have h1 := List.find?_some hf
    have h2 := List.mem_of_find?_eq_some hf
    exact List.any_eq_true.mpr ⟨p, h2, h1⟩

theorem jsonEqNum_true_iff (v : Json) (n : Int) :
    jsonEqNum v n = true ↔ v = Json.num n := by
  cases v <;> simp [jsonEqNum]

theorem findValidity_spec (c : Int) (cs : List Json) (acc : Bool)
    (h : ∀ cl ∈ cs, (Json.getKey cl "id").isSome) :
    ∃ b, ImportTags.findValidity c cs acc = .ok b ∧
      (b = true ↔ (acc = true ∨ ∃ cl ∈ cs, cl.getKey "id" = some (.num c))) := by
  induction cs generalizing acc with
  | nil => exact ⟨acc, rfl, by simp⟩
  | cons cl rest ih =>
    have hcl := h cl (by simp)
    rcases hv : cl.getKey "id" with _ | v
    · rw [hv] at hcl; simp at hcl
    · obtain ⟨b, hb, hiff⟩ := ih (acc || jsonEqNum v c) (fun x hx => h x (by simp [hx]))
      refine ⟨b, ?_, ?_⟩
      · simpa [ImportTags.findValidity, hv] using hb
      · rw [hiff]
        constructor
        · rintro (hacc | ⟨x, hx, hxid⟩)
          · rcases Bool.or_eq_true .. |>.mp hacc with h1 | h1
            · exact Or.inl h1
            · exact Or.inr ⟨cl, by simp, by rw [hv, (jsonEqNum_true_iff v c).mp h1]⟩
          · exact Or.inr ⟨x, by simp [hx], hxid⟩
        · rintro (hacc | ⟨x, hx, hxid⟩)
          · exact Or.inl (by simp [hacc])
          · rcases List.mem_cons.mp hx with rfl | hx'
            · rw [hv] at hxid
              have : jsonEqNum v c = true := (jsonEqNum_true_iff v c).mpr (by injection hxid)
              exact Or.inl (by simp [this])
            · exact Or.inr ⟨x, hx', hxid⟩

theorem collectIds_spec (mc : List Json)
    (h : ∀ cl ∈ mc, (Json.getKey cl "id").isSome) :
    ∃ ids, UpdateCmdb.collectIds mc = .ok ids ∧
      ∀ n : Int, (ids.any (fun v => jsonEqNum v n) = true ↔
        ∃ cl ∈ mc, cl.getKey "id" = some (.num n)) := by
  induction mc with
  | nil => exact ⟨[], rfl, by simp⟩
  | cons cl rest ih =>
    have hcl := h cl (by simp)
    rcases hv : cl.getKey "id" with _ | v
    · rw [hv] at hcl; simp at hcl
    · obtain ⟨ids, hids, hiff⟩ := ih (fun x hx => h x (by simp [hx]))
      refine ⟨v :: ids, by simp [UpdateCmdb.collectIds, hv, hids], fun n => ?_⟩
      simp only [List.any_cons, Bool.or_eq_true, hiff n]
      constructor
      · rintro (h1 | ⟨x, hx, hxid⟩)
        · exact ⟨cl, by simp, by rw [hv, (jsonEqNum_true_iff v n).mp h1]⟩
        · exact ⟨x, by simp [hx], hxid⟩
      · rintro ⟨x, hx, hxid⟩
        rcases List.mem_cons.mp hx with rfl | hx'
        · rw [hv] at hxid
          exact Or.inl ((jsonEqNum_true_iff v n).mpr (by injection hxid))
        · exact Or.inr ⟨x, hx', hxid⟩

theorem create_tag_shape (sub : ImportTags.TagRequest → Except String Int)
    (item : Dict)
    (h : ∀ k ∈ ImportTags.requiredFields, (dictGet item k).isSome) :
    (∃ t, (ImportTags.create_tag sub item).1 = .ok t) ∨
    (∃ m, (ImportTags.create_tag sub item).1 = .error (.requestFailed m)) ∨
    (∃ m, (ImportTags.create_tag sub item).1 = .error (.valueError m)) := by
  obtain ⟨tt, htt⟩ := Option.isSome_iff_exists.mp
    (h "tag_type" (by simp [ImportTags.requiredFields]))
  obtain ⟨nm, hnm⟩ := Option.isSome_iff_exists.mp
    (h "name" (by simp [ImportTags.requiredFields]))
  obtain ⟨ds, hds⟩ := Option.isSome_iff_exists.mp
    (h "desc" (by simp [ImportTags.requiredFields]))
  obtain ⟨ow, how⟩ := Option.isSome_iff_exists.mp
    (h "owner" (by simp [ImportTags.requiredFields]))
  obtain ⟨co, hco⟩ := Option.isSome_iff_exists.mp
    (h "color" (by simp [ImportTags.requiredFields]))
  obtain ⟨lk, hlk⟩ := Option.isSome_iff_exists.mp
    (h "locked" (by simp [ImportTags.requiredFields]))
  by_cases hb : dictHasKey item "" = true
  · exact Or.inr (Or.inr ⟨"Fields cannot be blank.", by
      simp [ImportTags.create_tag, hb]⟩)
  · by_cases hin : tt ∈ ImportTags.acceptable_types
    · rcases hs : sub ⟨tt, nm, ds, ow, co, lk⟩ with m | t
      · exact Or.inr (Or.inl ⟨m, by
          simp [ImportTags.create_tag, hb, htt, hnm, hds, how, hco, hlk, hin, hs]⟩)
      · exact Or.inl ⟨t, by
          simp [ImportTags.create_tag, hb, htt, hnm, hds, how, hco, hlk, hin, hs]⟩
    · exact Or.inr (Or.inr ⟨"Tag type is not valid.  Valid types are: COMPLIANCE, LOCATION, CUSTOM, REMEDIATION, PEOPLE, PROJECT, SCANNER, or CMDB", by
        simp [ImportTags.create_tag, hb, htt, hin]⟩)

theorem tag_mainLoop_ok (sub : ImportTags.TagRequest → Except String Int)
    (records : List Dict)
    (h : ∀ r ∈ records, ∀ k ∈ ImportTags.requiredFields, (dictGet r k).isSome) :
    ∃ outs, ImportTags.mainLoop sub records = .ok outs ∧
      outs.length = records.length := by
  induction records with
  | nil => exact ⟨[], rfl, rfl⟩
  | cons item rest ih =>
    obtain ⟨outs, houts, hlen⟩ := ih (fun r hr => h r (by simp [hr]))
    obtain ⟨nm, hnm⟩ := Option.isSome_iff_exists.mp
      (h item (by simp) "name" (by simp [ImportTags.requiredFields]))
    have hshape := create_tag_shape sub item (h item (by simp))
    rcases hshape with ⟨t, ht⟩ | ⟨m, hm⟩ | ⟨m, hm⟩
    · exact ⟨.success nm t :: outs, by
        simp [ImportTags.mainLoop, ImportTags.processItem, hnm, ht, houts], by
        simp [hlen]⟩
    · exact ⟨.failure nm (.requestFailed m) :: outs, by
        simp [ImportTags.mainLoop, ImportTags.processItem, hnm, hm, houts], by
        simp [hlen]⟩
    · exact ⟨.failure nm (.valueError m) :: outs, by
        simp [ImportTags.mainLoop, ImportTags.processItem, hnm, hm, houts], by
        simp [hlen]⟩

theorem cmdb_mainLoop_counts (network_type : String)
    (update_hosts_cmdb : List UpdateCmdb.SearchFilter → Dict → Except String Int)
    (records : List Dict) :
    (UpdateCmdb.mainLoop network_type update_hosts_cmdb records).1.length
      = records.length ∧
    (UpdateCmdb.mainLoop network_type update_hosts_cmdb records).2.1
      + (UpdateCmdb.mainLoop network_type update_hosts_cmdb records).2.2
      = records.length := by
  induction records with
  | nil => exact ⟨rfl, rfl⟩
  | cons item rest ih =>
    rcases hr : (UpdateCmdb.send_update_request network_type update_hosts_cmdb item).1
      with e | j
    · refine ⟨by simp [UpdateCmdb.mainLoop, hr, ih.1], ?_⟩
      have h2 := ih.2
      simp only [UpdateCmdb.mainLoop, hr, List.length_cons]
      omega
    · refine ⟨by simp [UpdateCmdb.mainLoop, hr, ih.1], ?_⟩
      have h2 := ih.2
      simp only [UpdateCmdb.mainLoop, hr, List.length_cons]
      omega

theorem dictHasKey_get {d : Dict} {k : String}
    (h : dictHasKey d k = true) : ∃ v, dictGet d k = some v := by
  unfold dictHasKey at h
  obtain ⟨p, hmem, hp⟩ := List.any_eq_true.mp h
  unfold dictGet
  rcases hf : d.find? (fun q => q.1 == k) with _ | q
  · exact absurd (List.find?_eq_none.mp hf p hmem) (by simp [hp])
  · rw [hf]
    exact ⟨q.2, rfl⟩

theorem send_update_request_trace (network_type : String)
    (update_hosts_cmdb : List UpdateCmdb.SearchFilter → Dict → Except String Int)
    (kwargs : Dict) (h : String)
    (hget : dictGet kwargs "host" = some h) (hne : h ≠ "") :
    (UpdateCmdb.send_update_request network_type update_hosts_cmdb kwargs).2 =
      [( if pyUpper network_type == "HOSTNAME" then
           [UpdateCmdb.SearchFilter.mk "hostname" false "EXACT" (some h)]
         else
           [UpdateCmdb.SearchFilter.mk "ipAddress" false "EXACT" (some h)],
         (kwargs.filter (fun p => p.1 != "host")).filter (fun p => p.2 != "") )] := by
  have hk := dictGet_some_hasKey hget
  have hbne : (h != "") = true := bne_iff_ne.mpr hne
  by_cases hc : (pyUpper network_type == "HOSTNAME") = true
  · rcases hs : update_hosts_cmdb
        [UpdateCmdb.SearchFilter.mk "hostname" false "EXACT" (some h)]
        ((kwargs.filter (fun p => p.1 != "host")).filter (fun p => p.2 != ""))
      with m | j <;>
      simp [UpdateCmdb.send_update_request, hget, hk, hbne, hc, hs,
        -List.filter_filter]
  · rcases hs : update_hosts_cmdb
        [UpdateCmdb.SearchFilter.mk "ipAddress" false "EXACT" (some h)]
        ((kwargs.filter (fun p => p.1 != "host")).filter (fun p => p.2 != ""))
      with m | j <;>
      simp [UpdateCmdb.send_update_request, hget, hk, hbne, hc, hs,
        -List.filter_filter]

/-! ### Concrete collaborator stubs and rows used by witnesses -/

/-- A collaborator stub accepting every tag-creation request. -/
def tagSubmitOk : ImportTags.TagRequest → Except String Int :=
  fun _ => .ok 42

/-- A collaborator stub accepting every bulk-update request. -/
def cmdbSubmitOk : List UpdateCmdb.SearchFilter → Dict → Except String Int :=
  fun _ _ => .ok 7

/-- A tag csv row whose `desc` VALUE is the empty string (all keys present
and non-blank). -/
def blankDescRow : Dict :=
  [("tag_type", "CUSTOM"), ("name", "n"), ("desc", ""),
   ("owner", "o"), ("color", "c"), ("locked", "l")]

/-! ### Claim theorems -/

/-- C1: the claim says a creation record with any blank field VALUE fails
with the validation error "Fields cannot be blank." and is never submitted.
The source line `if "" in tag_info:` tests dictionary KEY membership, so a
record whose `desc` value is blank sails through validation and IS
submitted to the collaborator — contradicting the check's own error
message, which talks about blank fields. -/
theorem c1_blank_value_is_submitted :
    (∃ p ∈ blankDescRow, p.2 = "") ∧
    ImportTags.create_tag tagSubmitOk blankDescRow =
      (.ok 42, [⟨"CUSTOM", "n", "", "o", "c", "l"⟩]) ∧
    ImportTags.create_tag tagSubmitOk blankDescRow ≠
      (.error (.valueError "Fields cannot be blank."), []) := by
  refine ⟨⟨("desc", ""), by simp [blankDescRow], rfl⟩, rfl, ?_⟩
  rw [show ImportTags.create_tag tagSubmitOk blankDescRow =
    (.ok 42, [⟨"CUSTOM", "n", "", "o", "c", "l"⟩]) from rfl]
  simp

/-- C2 as stated is false: the source compares `network_type.upper()` with
`'HOSTNAME'`, so the typo-cased mode string "Hostname" selects the
hostname-keyed filter, not the IP-keyed one. -/
theorem c2_hostname_typo_counterexample :
    (UpdateCmdb.send_update_request "Hostname" cmdbSubmitOk
        [("host", "h1")]).2.map Prod.fst =
      [[UpdateCmdb.SearchFilter.mk "hostname" false "EXACT" (some "h1")]] ∧
    (UpdateCmdb.send_update_request "Hostname" cmdbSubmitOk
        [("host", "h1")]).2.map Prod.fst ≠
      [[UpdateCmdb.SearchFilter.mk "ipAddress" false "EXACT" (some "h1")]] := by
  decide

/-- C2 amended: for every update record with a present, non-empty host, the
built search filter is keyed on the hostname field exactly when the
networkMode string equals "HOSTNAME" under case-insensitive (uppercasing)
comparison; whenever that comparison fails the filter is keyed on the
IP-address field. -/
theorem c2_network_mode_case_insensitive (network_type : String)
    (update_hosts_cmdb : List UpdateCmdb.SearchFilter → Dict → Except String Int)
    (kwargs : Dict) (h : String)
    (hget : dictGet kwargs "host" = some h) (hne : h ≠ "") :
    ((UpdateCmdb.send_update_request network_type update_hosts_cmdb
        kwargs).2.map Prod.fst =
        [[UpdateCmdb.SearchFilter.mk "hostname" false "EXACT" (some h)]] ↔
      ciEq network_type "HOSTNAME" = true) ∧
    (ciEq network_type "HOSTNAME" = false →
      (UpdateCmdb.send_update_request network_type update_hosts_cmdb
        kwargs).2.map Prod.fst =
        [[UpdateCmdb.SearchFilter.mk "ipAddress" false "EXACT" (some h)]]) := by
  have htr := send_update_request_trace network_type update_hosts_cmdb kwargs h
    hget hne
  have hci : ciEq network_type "HOSTNAME" = (pyUpper network_type == "HOSTNAME") := by
    unfold ciEq
    rw [show pyUpper "HOSTNAME" = "HOSTNAME" from rfl]
  rw [htr, hci]
  by_cases hc : (pyUpper network_type == "HOSTNAME") = true
  · simp [hc]
  · have hc2 : (pyUpper network_type == "HOSTNAME") = false := by
      simpa using hc
    constructor
    · rw [hc2]
      simp only [if_false, Bool.false_eq_true, iff_false, List.map_cons,
        List.map_nil]
      intro hbad
      simp at hbad
    · intro _
      simp [hc2]

/-- C2 witness: at the concrete typo-cased mode "Hostname" with host "h2". -/
theorem c2_network_mode_case_insensitive_witness :
    ((UpdateCmdb.send_update_request "Hostname" cmdbSubmitOk
        [("host", "h2")]).2.map Prod.fst =
        [[UpdateCmdb.SearchFilter.mk "hostname" false "EXACT" (some "h2")]] ↔
      ciEq "Hostname" "HOSTNAME" = true) ∧
    (ciEq "Hostname" "HOSTNAME" = false →
      (UpdateCmdb.send_update_request "Hostname" cmdbSubmitOk
        [("host", "h2")]).2.map Prod.fst =
        [[UpdateCmdb.SearchFilter.mk "ipAddress" false "EXACT" (some "h2")]]) :=
  c2_network_mode_case_insensitive "Hostname" cmdbSubmitOk [("host", "h2")]
    "h2" rfl (by decide)

/-- C4 as stated is false in the absent-host case: a record without a
`host` key makes `kwargs.pop('host')` raise `KeyError('host')`, which is
not the validation error ("There was no host provided for this row."). -/
theorem c4_absent_host_counterexample :
    (UpdateCmdb.send_update_request "IP" cmdbSubmitOk [("os", "linux")]).1 =
      .error (.keyError "host") ∧
    PyErr.keyError "host" ≠
      PyErr.valueError "There was no host provided for this row." :=
  ⟨rfl, by decide⟩

/-- C4 amended: an empty host value yields the `ValueError` ("There was no
host provided for this row.") with no bulk-update call; an absent host key
yields `KeyError("host")` with no bulk-update call; and in every case a
bulk-update call is only made when the record carries a non-blank host. -/
theorem c4_host_validation (network_type : String)
    (update_hosts_cmdb : List UpdateCmdb.SearchFilter → Dict → Except String Int)
    (kwargs : Dict) :
    (dictGet kwargs "host" = some "" →
       UpdateCmdb.send_update_request network_type update_hosts_cmdb kwargs =
         (.error (.valueError "There was no host provided for this row."), [])) ∧
    (dictHasKey kwargs "host" = false →
       UpdateCmdb.send_update_request network_type update_hosts_cmdb kwargs =
         (.error (.keyError "host"), [])) ∧
    (∀ call ∈ (UpdateCmdb.send_update_request network_type update_hosts_cmdb
        kwargs).2,
       ∃ h, dictGet kwargs "host" = some h ∧ h ≠ "") := by
  refine ⟨?_, ?_, ?_⟩
  · intro hget
    have hk := dictGet_some_hasKey hget
    simp [UpdateCmdb.send_update_request, hget, hk]
  · intro hk
    simp [UpdateCmdb.send_update_request, hk]
  · intro call hcall
    by_cases hk : dictHasKey kwargs "host" = true
    · obtain ⟨v, hv⟩ := dictHasKey_get hk
      by_cases hv0 : v = ""
      · subst hv0
        have hempty :
            (UpdateCmdb.send_update_request network_type update_hosts_cmdb
              kwargs).2 = [] := by
          simp [UpdateCmdb.send_update_request, hv, hk]
        rw [hempty] at hcall
        simp at hcall
      · exact ⟨v, hv, hv0⟩
    · have hk2 : dictHasKey kwargs "host" = false := by simpa using hk
      have hempty :
          (UpdateCmdb.send_update_request network_type update_hosts_cmdb
            kwargs).2 = [] := by
        simp [UpdateCmdb.send_update_request, hk2]
      rw [hempty] at hcall
      simp at hcall

/-- C4 witness: the three conjuncts applied at concrete rows. -/
theorem c4_host_validation_witness :
    UpdateCmdb.send_update_request "IP" cmdbSubmitOk [("host", "")] =
      (.error (.valueError "There was no host provided for this row."), []) ∧
    UpdateCmdb.send_update_request "IP" cmdbSubmitOk [("os", "linux")] =
      (.error (.keyError "host"), []) ∧
    (∀ call ∈ (UpdateCmdb.send_update_request "IP" cmdbSubmitOk
        [("host", "h1")]).2,
       ∃ h, dictGet [("host", "h1")] "host" = some h ∧ h ≠ "") :=
  ⟨(c4_host_validation "IP" cmdbSubmitOk [("host", "")]).1 rfl,
   (c4_host_validation "IP" cmdbSubmitOk [("os", "linux")]).2.1 rfl,
   (c4_host_validation "IP" cmdbSubmitOk [("host", "h1")]).2.2⟩

/-- C5: for every update record with a present, non-empty host, exactly one
bulk-update call is made, and its sparse optional-field mapping holds
precisely the non-host entries of the record whose value is a non-empty
string, with the values passed through verbatim. -/
theorem c5_sparse_update_dict (network_type : String)
    (update_hosts_cmdb : List UpdateCmdb.SearchFilter → Dict → Except String Int)
    (kwargs : Dict) (h : String)
    (hget : dictGet kwargs "host" = some h) (hne : h ≠ "") :
    ∃ fl ud,
      (UpdateCmdb.send_update_request network_type update_hosts_cmdb
        kwargs).2 = [(fl, ud)] ∧
      ∀ k v, ((k, v) ∈ ud ↔ ((k, v) ∈ kwargs ∧ k ≠ "host" ∧ v ≠ "")) := by
  refine ⟨_, _,
    send_update_request_trace network_type update_hosts_cmdb kwargs h hget hne,
    ?_⟩
  intro k v
  simp only [List.mem_filter, bne_iff_ne, and_assoc]

/-- C5 witness: a row with host plus five optional columns of which exactly
three are non-empty. -/
theorem c5_sparse_update_dict_witness :
    ∃ fl ud,
      (UpdateCmdb.send_update_request "IP" cmdbSubmitOk
        [("host", "h1"), ("os", "Linux"), ("manufacturer", ""),
         ("model_id", "m1"), ("location", ""), ("owned_by", "me")]).2 =
        [(fl, ud)] ∧
      ∀ k v, ((k, v) ∈ ud ↔
        ((k, v) ∈ ([("host", "h1"), ("os", "Linux"), ("manufacturer", ""),
            ("model_id", "m1"), ("location", ""), ("owned_by", "me")] : Dict) ∧
          k ≠ "host" ∧ v ≠ "")) :=
  c5_sparse_update_dict "IP" cmdbSubmitOk
    [("host", "h1"), ("os", "Linux"), ("manufacturer", ""),
     ("model_id", "m1"), ("location", ""), ("owned_by", "me")]
    "h1" rfl (by decide)

/-- C6: the network-mode selection is a case-insensitive two-way branch:
with a present, non-empty host, uppercasing the mode to "HOSTNAME" selects
the single-criterion hostname search (EXACT, non-exclusive), and every
other mode string selects the single-criterion IP-address search (EXACT,
non-exclusive). -/
theorem c6_two_way_branch (network_type : String)
    (update_hosts_cmdb : List UpdateCmdb.SearchFilter → Dict → Except String Int)
    (kwargs : Dict) (h : String)
    (hget : dictGet kwargs "host" = some h) (hne : h ≠ "") :
    (UpdateCmdb.send_update_request network_type update_hosts_cmdb
      kwargs).2.map Prod.fst =
      [ if ciEq network_type "HOSTNAME" = true then
          [UpdateCmdb.SearchFilter.mk "hostname" false "EXACT" (some h)]
        else
          [UpdateCmdb.SearchFilter.mk "ipAddress" false "EXACT" (some h)] ] := by
  have htr := send_update_request_trace network_type update_hosts_cmdb kwargs h
    hget hne
  have hci : ciEq network_type "HOSTNAME" = (pyUpper network_type == "HOSTNAME") := by
    unfold ciEq
    rw [show pyUpper "HOSTNAME" = "HOSTNAME" from rfl]
  rw [htr, hci]
  by_cases hc : (pyUpper network_type == "HOSTNAME") = true
  · simp [hc]
  · have hc2 : (pyUpper network_type == "HOSTNAME") = false := by simpa using hc
    simp [hc2]

/-- C6 witness: an unrecognised mode string selects the IP-address search. -/
theorem c6_two_way_branch_witness :
    (UpdateCmdb.send_update_request "MIXED" cmdbSubmitOk
      [("host", "h3")]).2.map Prod.fst =
      [ if ciEq "MIXED" "HOSTNAME" = true then
          [UpdateCmdb.SearchFilter.mk "hostname" false "EXACT" (some "h3")]
        else
          [UpdateCmdb.SearchFilter.mk "ipAddress" false "EXACT" (some "h3")] ] :=
  c6_two_way_branch "MIXED" cmdbSubmitOk [("host", "h3")] "h3" rfl (by decide)

/-- C3: the CMDB batch loop catches every per-record failure (its `except`
clause names `Exception`), yields one outcome per record, and ends with
`success_counter + failure_counter = N`; the tag loop likewise processes
all N records — one outcome each — whenever the rows carry the tool's
fixed csv header fields (its `except` clauses catch exactly the
`RequestFailed` and `ValueError` failures `create_tag` can raise). -/
theorem c3_batch_outcomes :
    (∀ (network_type : String)
       (update_hosts_cmdb : List UpdateCmdb.SearchFilter → Dict → Except String Int)
       (records : List Dict),
       (UpdateCmdb.mainLoop network_type update_hosts_cmdb records).1.length
         = records.length ∧
       (UpdateCmdb.mainLoop network_type update_hosts_cmdb records).2.1
         + (UpdateCmdb.mainLoop network_type update_hosts_cmdb records).2.2
         = records.length) ∧
    (∀ (submit : ImportTags.TagRequest → Except String Int) (records : List Dict),
       (∀ r ∈ records, ∀ k ∈ ImportTags.requiredFields, (dictGet r k).isSome) →
       ∃ outs, ImportTags.mainLoop submit records = .ok outs ∧
         outs.length = records.length) :=
  ⟨fun network_type update_hosts_cmdb records =>
     cmdb_mainLoop_counts network_type update_hosts_cmdb records,
   fun submit records h => tag_mainLoop_ok submit records h⟩

/-- C3 witness: a two-row CMDB batch (one row fails on its blank host) and
a two-row tag batch (one row fails on an invalid tag type). -/
theorem c3_batch_outcomes_witness :
    ((UpdateCmdb.mainLoop "IP" cmdbSubmitOk
        [[("host", "h1"), ("os", "x")], [("host", "")]]).1.length = 2 ∧
     (UpdateCmdb.mainLoop "IP" cmdbSubmitOk
        [[("host", "h1"), ("os", "x")], [("host", "")]]).2.1
       + (UpdateCmdb.mainLoop "IP" cmdbSubmitOk
        [[("host", "h1"), ("os", "x")], [("host", "")]]).2.2 = 2) ∧
    (∃ outs, ImportTags.mainLoop tagSubmitOk
        [[("tag_type", "CUSTOM"), ("name", "a"), ("desc", "d"),
          ("owner", "o"), ("color", "c"), ("locked", "l")],
         [("tag_type", "BOGUS"), ("name", "b"), ("desc", "d"),
          ("owner", "o"), ("color", "c"), ("locked", "l")]] = .ok outs ∧
       outs.length = 2) :=
  ⟨c3_batch_outcomes.1 "IP" cmdbSubmitOk
     [[("host", "h1"), ("os", "x")], [("host", "")]],
   c3_batch_outcomes.2 tagSubmitOk
     [[("tag_type", "CUSTOM"), ("name", "a"), ("desc", "d"),
       ("owner", "o"), ("color", "c"), ("locked", "l")],
      [("tag_type", "BOGUS"), ("name", "b"), ("desc", "d"),
       ("owner", "o"), ("color", "c"), ("locked", "l")]] (by decide)⟩

/-- The standard paged shape of the authorized-identity listing, with one
client entry of identifier 123 — the very shape `validate_client_id` in
the same file unwraps via `['_embedded']['clients']`. -/
def clientsPage123 : Json :=
  Json.obj [("_embedded", Json.obj
    [("clients", Json.arr [Json.obj [("id", Json.num 123)]])])]

/-- A collaborator returning `clientsPage123` for every page request. -/
def getClients123 : Nat → Nat → Except String Json :=
  fun _ _ => .ok clientsPage123

/-- C7: the claim says auto-resolution returns the first entry's identifier.
The CMDB tool does (`my_clients[0]['id']`), but the tag tool's
`get_client_id` reads `my_client['id']` on the page envelope itself, which
has no `id` key — on the response shape its own `validate_client_id`
documents, it raises an uncaught `KeyError('id')` instead of returning
123. -/
theorem c7_get_client_id :
    ImportTags.get_client_id getClients123 =
      .error (.uncaught (.keyError "id")) ∧
    ImportTags.get_client_id getClients123 ≠ .ok (Json.num 123) ∧
    UpdateCmdb.get_client_id [Json.obj [("id", Json.num 123)]] =
      .ok (Json.num 123) := by
  refine ⟨rfl, ?_, rfl⟩
  rw [show ImportTags.get_client_id getClients123 =
    .error (.uncaught (.keyError "id")) from rfl]
  simp

theorem tag_validate_spec (g : Nat → Nat → Except String Json) (c : Int)
    (resp emb : Json) (cs : List Json)
    (hg : g 300 0 = .ok resp)
    (hemb : resp.getKey "_embedded" = some emb)
    (hcl : emb.getKey "clients" = some (.arr cs))
    (hids : ∀ cl ∈ cs, (cl.getKey "id").isSome) :
    ∃ b, ImportTags.validate_client_id g c = .ok b ∧
      (b = true ↔ ∃ cl ∈ cs, cl.getKey "id" = some (.num c)) := by
  obtain ⟨b, hb, hiff⟩ := findValidity_spec c cs false hids
  refine ⟨b, ?_, ?_⟩
  · simp [ImportTags.validate_client_id, hg, hemb, hcl, hb]
  · rw [hiff]
    simp

/-- C8: a supplied client identity is checked for membership, by identifier
equality, in the authorized-identity list of each tool; a member identity
is the one the run proceeds with, and a non-member identity makes the
process exit with status 1 regardless of the input file — so before any
record is read or processed. -/
theorem c8_explicit_identity :
    (∀ (g : Nat → Nat → Except String Json) (c : Int) (resp emb : Json)
       (cs : List Json) (read_csv : Except Halt (List Dict))
       (create : Json → ImportTags.TagRequest → Except String Int),
       g 300 0 = .ok resp →
       resp.getKey "_embedded" = some emb →
       emb.getKey "clients" = some (.arr cs) →
       (∀ cl ∈ cs, (cl.getKey "id").isSome) →
       (((∃ cl ∈ cs, cl.getKey "id" = some (.num c)) →
           ImportTags.resolve (some c) g = .ok (.num c)) ∧
        ((¬ ∃ cl ∈ cs, cl.getKey "id" = some (.num c)) →
           ImportTags.main (some c) g read_csv create = .error (.exit 1)))) ∧
    (∀ (my_clients : List Json) (c : Int) (read_csv : Except Halt (List Dict))
       (network_type : String)
       (update_hosts_cmdb : List UpdateCmdb.SearchFilter → Dict → Except String Int),
       (∀ cl ∈ my_clients, (cl.getKey "id").isSome) →
       (((∃ cl ∈ my_clients, cl.getKey "id" = some (.num c)) →
           UpdateCmdb.resolve (some c) my_clients = .ok (.num c)) ∧
        ((¬ ∃ cl ∈ my_clients, cl.getKey "id" = some (.num c)) →
           UpdateCmdb.toolInit (some c) my_clients read_csv network_type
             update_hosts_cmdb = .error (.exit 1)))) := by
  constructor
  · intro g c resp emb cs read_csv create hg hemb hcl hids
    obtain ⟨b, hb, hiff⟩ := tag_validate_spec g c resp emb cs hg hemb hcl hids
    constructor
    · intro hmem
      have hbt : b = true := hiff.mpr hmem
      rw [hbt] at hb
      simp [ImportTags.resolve, hb]
    · intro hnmem
      have hbf : b = false := by
        cases b
        · rfl
        · exact absurd (hiff.mp rfl) hnmem
      rw [hbf] at hb
      simp [ImportTags.main, ImportTags.resolve, hb]
  · intro my_clients c read_csv network_type update_hosts_cmdb hids
    obtain ⟨ids, hc, hiff⟩ := collectIds_spec my_clients hids
    constructor
    · intro hmem
      have ha : ids.any (fun v => jsonEqNum v c) = true := (hiff c).mpr hmem
      simp [UpdateCmdb.resolve, UpdateCmdb.validate_client_id, hc, ha]
    · intro hnmem
      have ha : ids.any (fun v => jsonEqNum v c) = false := by
        cases hx : ids.any (fun v => jsonEqNum v c)
        · rfl
        · exact absurd ((hiff c).mp hx) hnmem
      simp [UpdateCmdb.toolInit, UpdateCmdb.resolve,
        UpdateCmdb.validate_client_id, hc, ha]

/-- The spec scenario's authorized-identity set, as client objects 10/20/30. -/
def tripleClients : List Json :=
  [Json.obj [("id", Json.num 10)], Json.obj [("id", Json.num 20)],
   Json.obj [("id", Json.num 30)]]

/-- The paged envelope around `tripleClients`. -/
def tripleEmbedded : Json :=
  Json.obj [("clients", Json.arr tripleClients)]

/-- The full first-page response holding `tripleClients`. -/
def clientsPageTriple : Json :=
  Json.obj [("_embedded", tripleEmbedded)]

/-- A collaborator returning `clientsPageTriple` for every page request. -/
def getClientsTriple : Nat → Nat → Except String Json :=
  fun _ _ => .ok clientsPageTriple

/-- C8 witness: identity 20 is accepted and used, identity 99 exits with
status 1 in both tools even when the input file could never be read. -/
theorem c8_explicit_identity_witness :
    ImportTags.resolve (some 20) getClientsTriple = .ok (.num 20) ∧
    ImportTags.main (some 99) getClientsTriple
      (.error (.uncaught (.typeError "file never read"))) (fun _ _ => .ok 1) =
      .error (.exit 1) ∧
    UpdateCmdb.resolve (some 20) tripleClients = .ok (.num 20) ∧
    UpdateCmdb.toolInit (some 99) tripleClients
      (.error (.uncaught (.typeError "file never read"))) "IP" cmdbSubmitOk =
      .error (.exit 1) :=
  ⟨(c8_explicit_identity.1 getClientsTriple 20 clientsPageTriple tripleEmbedded
      tripleClients (.ok []) (fun _ _ => .ok 1) rfl rfl rfl
      (by simp [tripleClients, Json.getKey])).1
      ⟨Json.obj [("id", Json.num 20)], by simp [tripleClients], rfl⟩,
   (c8_explicit_identity.1 getClientsTriple 99 clientsPageTriple tripleEmbedded
      tripleClients (.error (.uncaught (.typeError "file never read")))
      (fun _ _ => .ok 1) rfl rfl rfl
      (by simp [tripleClients, Json.getKey])).2
      (by simp [tripleClients, Json.getKey]),
   (c8_explicit_identity.2 tripleClients 20 (.ok []) "IP" cmdbSubmitOk
      (by simp [tripleClients, Json.getKey])).1
      ⟨Json.obj [("id", Json.num 20)], by simp [tripleClients], rfl⟩,
   (c8_explicit_identity.2 tripleClients 99
      (.error (.uncaught (.typeError "file never read"))) "IP" cmdbSubmitOk
      (by simp [tripleClients, Json.getKey])).2
      (by simp [tripleClients, Json.getKey])⟩

/-- C9 as stated is false for the tag tool: with a resolvable identity
(123, via `getClients123`) and an input file holding zero data rows, the
tag run completes normally — it does not exit with a non-zero status. -/
theorem c9_tag_empty_counterexample :
    ImportTags.main (some 123) getClients123 (.ok []) (fun _ _ => .ok 1) =
      .ok (.num 123, []) ∧
    ImportTags.main (some 123) getClients123 (.ok []) (fun _ _ => .ok 1) ≠
      .error (.exit 1) := by
  refine ⟨rfl, ?_⟩
  rw [show ImportTags.main (some 123) getClients123 (.ok [])
    (fun _ _ => .ok 1) = .ok (.num 123, []) from rfl]
  simp

/-- C9 amended: only the CMDB tool treats an input file with zero data rows
as fatal — after identity resolution succeeds it reports and exits with
status 1 before processing any record; the tag tool instead runs to
normal completion on an empty file, producing zero outcomes. -/
theorem c9_empty_input :
    (∀ (client_id_cfg : Option Int) (my_clients : List Json)
       (network_type : String)
       (update_hosts_cmdb : List UpdateCmdb.SearchFilter → Dict → Except String Int)
       (cid : Json),
       UpdateCmdb.resolve client_id_cfg my_clients = .ok cid →
       UpdateCmdb.toolInit client_id_cfg my_clients (.ok []) network_type
         update_hosts_cmdb = .error (.exit 1)) ∧
    (∀ (client_id_cfg : Option Int) (g : Nat → Nat → Except String Json)
       (create : Json → ImportTags.TagRequest → Except String Int) (cid : Json),
       ImportTags.resolve client_id_cfg g = .ok cid →
       ImportTags.main client_id_cfg g (.ok []) create = .ok (cid, [])) := by
  constructor
  · intro client_id_cfg my_clients network_type update_hosts_cmdb cid hres
    simp [UpdateCmdb.toolInit, hres]
  · intro client_id_cfg g create cid hres
    simp [ImportTags.main, hres, ImportTags.mainLoop]

/-- C9 witness: both conjuncts at identity 123 and an empty record list. -/
theorem c9_empty_input_witness :
    UpdateCmdb.toolInit (some 123) [Json.obj [("id", Json.num 123)]] (.ok [])
      "IP" cmdbSubmitOk = .error (.exit 1) ∧
    ImportTags.main (some 123) getClients123 (.ok []) (fun _ _ => .ok 2) =
      .ok (.num 123, []) :=
  ⟨c9_empty_input.1 (some 123) [Json.obj [("id", Json.num 123)]] "IP"
     cmdbSubmitOk (.num 123) rfl,
   c9_empty_input.2 (some 123) getClients123 (fun _ _ => .ok 2) (.num 123) rfl⟩

/-- C10: the tag tool's explicit-identity validation inspects only the page
returned by `get_clients(page_size=300, page_number=0)`: it is fully
determined by that one page, and a client id carried on a later page but
absent from that first page is rejected — the validation returns false and
the run exits with status 1 without reading the input file. -/
theorem c10_first_page_only :
    (∀ (g g2 : Nat → Nat → Except String Json) (c : Int),
       g 300 0 = g2 300 0 →
       ImportTags.validate_client_id g c = ImportTags.validate_client_id g2 c) ∧
    (∀ (g : Nat → Nat → Except String Json) (c : Int) (resp emb : Json)
       (cs : List Json) (resp1 emb1 : Json) (cs1 : List Json)
       (read_csv : Except Halt (List Dict))
       (create : Json → ImportTags.TagRequest → Except String Int),
       g 300 0 = .ok resp →
       resp.getKey "_embedded" = some emb →
       emb.getKey "clients" = some (.arr cs) →
       (∀ cl ∈ cs, (cl.getKey "id").isSome) →
       g 300 1 = .ok resp1 →
       resp1.getKey "_embedded" = some emb1 →
       emb1.getKey "clients" = some (.arr cs1) →
       (∃ cl ∈ cs1, cl.getKey "id" = some (.num c)) →
       (∀ cl ∈ cs, ¬ cl.getKey "id" = some (.num c)) →
       ImportTags.validate_client_id g c = .ok false ∧
       ImportTags.main (some c) g read_csv create = .error (.exit 1)) := by
  constructor
  · intro g g2 c hpage
    unfold ImportTags.validate_client_id
    rw [hpage]
  · intro g c resp emb cs resp1 emb1 cs1 read_csv create hg hemb hcl hids
      hg1 hemb1 hcl1 hauth hnot
    obtain ⟨b, hb, hiff⟩ := tag_validate_spec g c resp emb cs hg hemb hcl hids
    have hbf : b = false := by
      cases b
      · rfl
      · obtain ⟨cl, hmem, hid⟩ := hiff.mp rfl
        exact absurd hid (hnot cl hmem)
    rw [hbf] at hb
    exact ⟨hb, by simp [ImportTags.main, ImportTags.resolve, hb]⟩

/-- First page of the two-page collaborator: the single client 10. -/
def clientsPageA : Json :=
  Json.obj [("_embedded", Json.obj
    [("clients", Json.arr [Json.obj [("id", Json.num 10)]])])]

/-- Second page of the two-page collaborator: the single client 999. -/
def clientsPageB : Json :=
  Json.obj [("_embedded", Json.obj
    [("clients", Json.arr [Json.obj [("id", Json.num 999)]])])]

/-- A paged collaborator: page 0 is `clientsPageA`, later pages are
`clientsPageB`. -/
def pagedGetClients : Nat → Nat → Except String Json :=
  fun _ page_number =>
    if page_number == 0 then .ok clientsPageA else .ok clientsPageB

/-- A collaborator returning `clientsPageA` for every page request. -/
def getClientsA : Nat → Nat → Except String Json :=
  fun _ _ => .ok clientsPageA

/-- C10 witness: client 999 sits on page 1 only; validation against the
two-page collaborator matches validation against its first page alone,
returns false, and the run exits 1 without reading the input file. -/
theorem c10_first_page_only_witness :
    ImportTags.validate_client_id pagedGetClients 999 =
      ImportTags.validate_client_id getClientsA 999 ∧
    ImportTags.validate_client_id pagedGetClients 999 = .ok false ∧
    ImportTags.main (some 999) pagedGetClients
      (.error (.uncaught (.typeError "file never read"))) (fun _ _ => .ok 1) =
      .error (.exit 1) := by
  refine ⟨c10_first_page_only.1 pagedGetClients getClientsA 999 rfl, ?_, ?_⟩
  · exact (c10_first_page_only.2 pagedGetClients 999 clientsPageA
      (Json.obj [("clients", Json.arr [Json.obj [("id", Json.num 10)]])])
      [Json.obj [("id", Json.num 10)]] clientsPageB
      (Json.obj [("clients", Json.arr [Json.obj [("id", Json.num 999)]])])
      [Json.obj [("id", Json.num 999)]]
      (.error (.uncaught (.typeError "file never read"))) (fun _ _ => .ok 1)
      rfl rfl rfl (by simp [Json.getKey]) rfl rfl rfl
      ⟨Json.obj [("id", Json.num 999)], by simp, rfl⟩
      (by simp [Json.getKey])).1
  · exact (c10_first_page_only.2 pagedGetClients 999 clientsPageA
      (Json.obj [("clients", Json.arr [Json.obj [("id", Json.num 10)]])])
      [Json.obj [("id", Json.num 10)]] clientsPageB
      (Json.obj [("clients", Json.arr [Json.obj [("id", Json.num 999)]])])
      [Json.obj [("id", Json.num 999)]]
      (.error (.uncaught (.typeError "file never read"))) (fun _ _ => .ok 1)
      rfl rfl rfl (by simp [Json.getKey]) rfl rfl rfl
      ⟨Json.obj [("id", Json.num 999)], by simp, rfl⟩
      (by simp [Json.getKey])).2
